import Mathlib

/-!
Verification of the request/response orchestration and retry-with-cancellation
state machine of the ubahsemaugue front-end, as a shallow embedding in Lean.
The embedding follows the two source files: geminiService provides the data-URL
codec (parseDataUrl), the response disambiguation (processGeminiResponse) and
the uniform error wrapping of generateProductScene; App provides the retry loop
of handleGenerate together with handleCancel and handleReset. Thrown JavaScript
values are modelled explicitly, the remote call is a parameter, and the single-
threaded interleaving of user actions with the loop's suspension points is made
explicit through an action schedule.
-/

namespace Ubahsemaugue

/-- A thrown JavaScript value: either an Error object carrying a message, or a
non-Error value, kept as its JSON rendering (what JSON.stringify yields). -/
inductive Thrown where
  | errorObj (message : String)
  | other (jsonRendering : String)
deriving DecidableEq

/-- The message of an Error, or the JSON rendering of a non-Error value; this
is the computation the service's catch block performs on its caught value. -/
def renderThrown : Thrown → String
  | Thrown.errorObj message => message
  | Thrown.other jsonRendering => jsonRendering

/-- A word character of a JavaScript regex (the class backslash-w without the
unicode flag): ASCII letters, ASCII digits and the underscore. -/
def isWordChar (c : Char) : Bool :=
  c.isAlpha || c.isDigit || c == '_'

/-- What a JavaScript regex dot matches (no s flag): any character except the
four line terminators LF, CR, U+2028 and U+2029. -/
def isDotChar (c : Char) : Bool :=
  decide (c ≠ Char.ofNat 10 ∧ c ≠ Char.ofNat 13 ∧
    c ≠ Char.ofNat 0x2028 ∧ c ≠ Char.ofNat 0x2029)

/-- A character of the standard base64 alphabet (including padding). -/
def isBase64Char (c : Char) : Bool :=
  c.isAlpha || c.isDigit || c == '+' || c == '/' || c == '='

/-- Drop an expected literal from the front of a character list, or fail. -/
def dropLit : List Char → List Char → Option (List Char)
  | [], s => some s
  | _ :: _, [] => none
  | p :: ps, c :: cs => if c = p then dropLit ps cs else none

/-- The fixed text the regex of parseDataUrl requires before its first group. -/
def urlHeader : List Char := "data:image/".data

/-- The fixed text the regex requires between its two capture groups. -/
def sepB64 : List Char := ";base64,".data

/-- The fixed front of the first capture group (the group reads image/ itself). -/
def imageSlash : List Char := "image/".data

/-- The anchored match of the regex of parseDataUrl against a string, returning
the two capture groups: the mime type (image/ plus at least one word character)
and the payload (any characters a dot matches, possibly none). The greedy
word-character run is maximal; since a semicolon is not a word character, no
backtracked shorter split can match the literal that follows, so taking the
maximal run is exactly the regex's behaviour. -/
def matchDataUrl (s : List Char) : Option (List Char × List Char) :=
  match dropLit urlHeader s with
  | none => none
  | some rest =>
    let w := rest.takeWhile isWordChar
    if w = [] then none
    else
      match dropLit sepB64 (rest.dropWhile isWordChar) with
      | none => none
      | some d => if d.all isDotChar then some (imageSlash ++ w, d) else none

/-- The payload decoded from a data URL: a mime type and base64 text. -/
structure ImagePayload where
  mimeType : String
  data : String
deriving DecidableEq

/-- The message of the error parseDataUrl throws when the regex does not match. -/
def invalidFormatMsg : String :=
  "Invalid image data URL format. Expected 'data:image/...;base64,...'"

/-- parseDataUrl from generateProductScene: match the data-URL regex and return
the two capture groups, or throw the invalid-format Error. -/
def parseDataUrl (dataUrl : String) : Except Thrown ImagePayload :=
  match matchDataUrl dataUrl.data with
  | some (m, d) => Except.ok { mimeType := String.mk m, data := String.mk d }
  | none => Except.error (Thrown.errorObj invalidFormatMsg)

/-- One part of a generation request: inline binary image data or text. -/
inductive RequestPart where
  | inlineData (mimeType data : String)
  | text (t : String)
deriving DecidableEq

/-- The ordered parts of one generation request. -/
abbrev GenerationRequest := List RequestPart

/-- The request body generateProductScene assembles: person image part, then
product image part, then the text part, in that order. -/
def buildRequest (personImage productImage : ImagePayload) (prompt : String) :
    GenerationRequest :=
  [RequestPart.inlineData personImage.mimeType personImage.data,
   RequestPart.inlineData productImage.mimeType productImage.data,
   RequestPart.text prompt]

/-- Inline binary data of a response part. -/
structure InlineData where
  mimeType : String
  data : String
deriving DecidableEq

/-- One part of a response candidate's content. -/
structure ResponsePart where
  inlineData : Option InlineData
  text : Option String
deriving DecidableEq

/-- The content of a response candidate. -/
structure Content where
  parts : Option (List ResponsePart)
deriving DecidableEq

/-- One candidate of a generation response. -/
structure Candidate where
  content : Option Content
deriving DecidableEq

/-- The remote model's response: optional candidates and the convenience
aggregate text field. -/
structure GeminiResponse where
  candidates : Option (List Candidate)
  text : Option String
deriving DecidableEq

/-- The optional chain of processGeminiResponse: first candidate, its content,
its parts, and among those the first part with (truthy) inline data. -/
def imagePartOf (r : GeminiResponse) : Option ResponsePart :=
  (((r.candidates.bind List.head?).bind Candidate.content).bind Content.parts).bind
    (List.find? fun part => part.inlineData.isSome)

/-- The placeholder used when the response carries no usable aggregate text. -/
def noTextPlaceholder : String := "No text response received."

/-- The JavaScript expression textResponse or-else the placeholder: both an
absent field and the empty string are falsy and select the placeholder. -/
def textOrPlaceholder : Option String → String
  | some t => if t = "" then noTextPlaceholder else t
  | none => noTextPlaceholder

/-- processGeminiResponse: extract the first inline-data part of the first
candidate and format it as a data URL, or throw the text-instead-of-image
Error embedding the aggregate text (or the placeholder). -/
def processGeminiResponse (response : GeminiResponse) : Except Thrown String :=
  match (imagePartOf response).bind ResponsePart.inlineData with
  | some d => Except.ok ("data:" ++ d.mimeType ++ ";base64," ++ d.data)
  | none =>
    Except.error (Thrown.errorObj
      ("The AI model responded with text instead of an image: \"" ++
        textOrPlaceholder response.text ++ "\""))

/-- The fixed front of the message generateProductScene wraps every failure in. -/
def genFailureHeader : String := "The AI model failed to generate an image. Details: "

/-- The body of generateProductScene's try block: decode both images, build the
request, perform the remote call, and disambiguate the response. The remote
call is a parameter of the embedding. -/
def genPipeline (remote : GenerationRequest → Except Thrown GeminiResponse)
    (personImageDataUrl productImageDataUrl prompt : String) : Except Thrown String := do
  let personImage ← parseDataUrl personImageDataUrl
  let productImage ← parseDataUrl productImageDataUrl
  let response ← remote (buildRequest personImage productImage prompt)
  processGeminiResponse response

/-- generateProductScene: run the pipeline and re-wrap any failure into one
Error whose message embeds the cause's message (or its JSON rendering). -/
def generateProductScene (remote : GenerationRequest → Except Thrown GeminiResponse)
    (personImageDataUrl productImageDataUrl prompt : String) : Except Thrown String :=
  match genPipeline remote personImageDataUrl productImageDataUrl prompt with
  | Except.ok url => Except.ok url
  | Except.error cause =>
      Except.error (Thrown.errorObj (genFailureHeader ++ renderThrown cause))

/-- The prompt selection options of the App component. -/
inductive PromptOption where
  | lifestyle
  | fashion
  | custom
deriving DecidableEq

/-- The lifestyle entry of PROMPT_OPTIONS, the initial prompt text. -/
def promptOptionsLifestyle : String :=
  "Create a photorealistic lifestyle image of the person happily using the product in a bright, modern living room."

/-- The fashion entry of PROMPT_OPTIONS. -/
def promptOptionsFashion : String :=
  "Generate a high-fashion studio shot of the person modeling the product against a clean, minimalist background."

/-- The phases of the App state machine. -/
inductive AppPhase where
  | idle
  | generating
  | results
  | error
deriving DecidableEq

/-- The App component's state: the eight useState hooks plus the cancellation
ref. Image slots hold data-URL strings when uploaded. -/
structure AppState where
  personImage : Option String
  productImage : Option String
  promptOption : PromptOption
  prompt : String
  generatedImage : Option String
  isLoading : Bool
  error : Option String
  appState : AppPhase
  cancelled : Bool
deriving DecidableEq

/-- handleCancel: set the cancellation flag and synchronously move to idle,
clearing loading, error and result. Inputs and prompt are untouched. -/
def handleCancel (s : AppState) : AppState :=
  { s with
    cancelled := true
    isLoading := false
    appState := AppPhase.idle
    error := none
    generatedImage := none }

/-- handleReset: set the cancellation flag and restore every field except it
to the initial values, clearing both images and reverting the prompt. -/
def handleReset (s : AppState) : AppState :=
  { s with
    cancelled := true
    personImage := none
    productImage := none
    generatedImage := none
    error := none
    isLoading := false
    appState := AppPhase.idle
    promptOption := PromptOption.lifestyle
    prompt := promptOptionsLifestyle }

/-- The fixed attempt bound of the retry loop. -/
def MAX_ATTEMPTS : Nat := 3

/-- The transient status text set before a retry attempt. -/
def retryMsg (attempt : Nat) : String :=
  "That didn't work, trying again... (Attempt " ++ toString attempt ++ "/" ++
    toString MAX_ATTEMPTS ++ ")"

/-- The generic terminal message shown when all attempts failed. -/
def terminalErrorMsg : String :=
  "Sorry, the AI couldn't create an image. Please try different images or a new prompt."

/-- An observable step of one generation session: a transient retrying status
update, the awaited call of generateProductScene for an attempt, or the fixed
backoff wait between attempts. -/
inductive GenEvent where
  | retryStatus (attempt : Nat)
  | attemptCall (attempt : Nat)
  | backoffWait (ms : Nat)
deriving DecidableEq

/-- Whether an event is a transient retrying status update. -/
def isRetryEvent : GenEvent → Bool
  | GenEvent.retryStatus _ => true
  | _ => false

/-- Whether an event is an awaited generateProductScene call. -/
def isAttemptEvent : GenEvent → Bool
  | GenEvent.attemptCall _ => true
  | _ => false

/-- A user action the interactive shell may run while the loop is suspended:
nothing, the cancel action, or the reset action. -/
inductive ExtAct where
  | nop
  | cancel
  | reset
deriving DecidableEq

/-- Apply a user action to the state: the shell runs these synchronously. -/
def applyExt : ExtAct → AppState → AppState
  | ExtAct.nop, s => s
  | ExtAct.cancel, s => handleCancel s
  | ExtAct.reset, s => handleReset s

/-- The for loop of handleGenerate. `outcomes` gives each attempt's result of
the awaited generateProductScene call; `ext` gives the user action running
while suspension number `susp` is in flight (the remote call of attempt n is
suspension 2*(n-1), the backoff wait after it is suspension 2*n-1), which is
the only interleaving the single-threaded scheduler allows. The fuel counts
the loop iterations left, so the loop as a whole performs at most
MAX_ATTEMPTS iterations; returned are the state when the call stack unwinds
and the session's event list. -/
def generateLoop (outcomes : Nat → Except String String) (ext : Nat → ExtAct) :
    Nat → Nat → Nat → AppState → AppState × List GenEvent
  | 0, _, _, s => (s, [])
  | fuel + 1, attempt, susp, s =>
    if s.cancelled then (s, [])
    else
      let p1 :=
        if 1 < attempt then
          ({ s with error := some (retryMsg attempt) }, [GenEvent.retryStatus attempt])
        else (s, ([] : List GenEvent))
      let s2 := applyExt (ext susp) p1.1
      match outcomes attempt with
      | Except.ok url =>
        if s2.cancelled then (s2, p1.2 ++ [GenEvent.attemptCall attempt])
        else
          ({ s2 with
              generatedImage := some url
              error := none
              isLoading := false
              appState := AppPhase.results }, p1.2 ++ [GenEvent.attemptCall attempt])
      | Except.error _ =>
        if s2.cancelled then (s2, p1.2 ++ [GenEvent.attemptCall attempt])
        else if attempt = MAX_ATTEMPTS then
          ({ s2 with
              error := some terminalErrorMsg
              isLoading := false
              appState := AppPhase.error }, p1.2 ++ [GenEvent.attemptCall attempt])
        else
          let s3 := applyExt (ext (susp + 1)) s2
          let rest := generateLoop outcomes ext fuel (attempt + 1) (susp + 2) s3
          (rest.1, p1.2 ++ [GenEvent.attemptCall attempt, GenEvent.backoffWait 2000] ++ rest.2)

/-- JavaScript falsiness of an image slot: absent or the empty string. -/
def isBlank : Option String → Bool
  | none => true
  | some t => t == ""

/-- handleGenerate: return unchanged when either image slot is falsy; else
clear result and error, enter generating with the cancellation flag cleared,
and run the retry loop. -/
def handleGenerate (outcomes : Nat → Except String String) (ext : Nat → ExtAct)
    (s : AppState) : AppState × List GenEvent :=
  if isBlank s.personImage || isBlank s.productImage then (s, [])
  else
    generateLoop outcomes ext MAX_ATTEMPTS 1 0
      { s with
        isLoading := true
        generatedImage := none
        error := none
        appState := AppPhase.generating
        cancelled := false }

/-- The catch block's errorMessage: the message of an Error, a fixed fallback
for anything else (used only for the diagnostic log). -/
def jsErrMessage : Thrown → String
  | Thrown.errorObj message => message
  | Thrown.other _ => "An unknown error occurred."

/-- The outcome handleGenerate's loop observes for each attempt when each
attempt n performs generateProductScene with remote behaviour `remote n` on
the state's two images and prompt. -/
def attemptOutcomes (remote : Nat → GenerationRequest → Except Thrown GeminiResponse)
    (person product prompt : String) : Nat → Except String String :=
  fun n =>
    match generateProductScene (remote n) person product prompt with
    | Except.ok url => Except.ok url
    | Except.error t => Except.error (jsErrMessage t)

/-- The initial state of the App component. -/
def initialState : AppState :=
  { personImage := none
    productImage := none
    promptOption := PromptOption.lifestyle
    prompt := promptOptionsLifestyle
    generatedImage := none
    isLoading := false
    error := none
    appState := AppPhase.idle
    cancelled := false }

/-- An idle state with both images uploaded, ready to generate. -/
def sampleState : AppState :=
  { initialState with
    personImage := some "data:image/png;base64,AAAA"
    productImage := some "data:image/jpeg;base64,BBBB" }

instance {ε α : Type} [DecidableEq ε] [DecidableEq α] : DecidableEq (Except ε α) :=
  fun a b =>
    match a, b with
    | Except.ok x, Except.ok y =>
      if h : x = y then isTrue (h ▸ rfl) else isFalse fun he => h (Except.ok.inj he)
    | Except.ok _, Except.error _ => isFalse fun he => Except.noConfusion he
    | Except.error _, Except.ok _ => isFalse fun he => Except.noConfusion he
    | Except.error e, Except.error f =>
      if h : e = f then isTrue (h ▸ rfl) else isFalse fun he => h (Except.error.inj he)

theorem dropLit_self_append (p s : List Char) : dropLit p (p ++ s) = some s := by
  induction p with
  | nil => rfl
  | cons c ps ih => simp [dropLit, ih]

theorem dropLit_eq_some : ∀ {p s r : List Char}, dropLit p s = some r → s = p ++ r
  | [], s, r, h => by
      simp only [dropLit, Option.some.injEq] at h
      simp [h]
  | _ :: _, [], _, h => by simp [dropLit] at h
  | p :: ps, c :: cs, r, h => by
      unfold dropLit at h
      by_cases hc : c = p
      · rw [if_pos hc] at h
        have := dropLit_eq_some h
        simp [hc, this]
      · rw [if_neg hc] at h
        exact absurd h (by simp)

theorem takeWhile_all_cons {q : Char → Bool} {w : List Char}
    (hw : ∀ c ∈ w, q c = true) {x : Char} (hx : q x = false) (r : List Char) :
    (w ++ x :: r).takeWhile q = w ∧ (w ++ x :: r).dropWhile q = x :: r := by
  induction w with
  | nil => simp [List.takeWhile_cons, List.dropWhile_cons, hx]
  | cons c cs ih =>
    have hc : q c = true := hw c (by simp)
    have ih' := ih fun a ha => hw a (by simp [ha])
    simp [List.takeWhile_cons, List.dropWhile_cons, hc, ih'.1, ih'.2]

theorem base64_isDot {c : Char} (h : isBase64Char c = true) : isDotChar c = true := by
  rw [isDotChar, decide_eq_true_iff]
  refine ⟨?_, ?_, ?_, ?_⟩ <;>
    exact fun he => absurd (he ▸ h) (by decide)

/-- The shape the spec's pattern describes: the fixed header, then a nonempty
run of word characters, then the base64 separator, then payload characters a
regex dot matches. A string matches the regex exactly when it has this shape. -/
def dataUrlShape (s : List Char) : Prop :=
  ∃ w d : List Char, w ≠ [] ∧ (∀ c ∈ w, isWordChar c = true) ∧
    (∀ c ∈ d, isDotChar c = true) ∧ s = urlHeader ++ w ++ sepB64 ++ d

theorem matchDataUrl_of_shape {w d : List Char} (hw : w ≠ [])
    (hwc : ∀ c ∈ w, isWordChar c = true) (hd : ∀ c ∈ d, isDotChar c = true) :
    matchDataUrl (urlHeader ++ w ++ sepB64 ++ d) = some (imageSlash ++ w, d) := by
  have hsplit : urlHeader ++ w ++ sepB64 ++ d =
      urlHeader ++ (w ++ ';' :: ("base64,".data ++ d)) := by
    simp [List.append_assoc]
    rfl
  have htk := takeWhile_all_cons hwc (x := ';') (by decide) ("base64,".data ++ d)
  rw [hsplit]
  unfold matchDataUrl
  rw [dropLit_self_append]
  simp only [htk.1, htk.2]
  rw [if_neg hw]
  have hsep2 : (';' :: ("base64,".data ++ d) : List Char) = sepB64 ++ d := rfl
  rw [hsep2, dropLit_self_append]
  simp [List.all_eq_true.mpr hd]

theorem matchDataUrl_sound {s m d : List Char} (h : matchDataUrl s = some (m, d)) :
    ∃ w, w ≠ [] ∧ (∀ c ∈ w, isWordChar c = true) ∧ m = imageSlash ++ w ∧
      (∀ c ∈ d, isDotChar c = true) ∧ s = urlHeader ++ w ++ sepB64 ++ d := by
  unfold matchDataUrl at h
  cases h1 : dropLit urlHeader s with
  | none => rw [h1] at h; simp at h
  | some rest =>
    rw [h1] at h
    simp only [] at h
    by_cases hw : rest.takeWhile isWordChar = []
    · rw [if_pos hw] at h; simp at h
    · rw [if_neg hw] at h
      cases h2 : dropLit sepB64 (rest.dropWhile isWordChar) with
      | none => rw [h2] at h; simp at h
      | some d' =>
        rw [h2] at h
        simp only [] at h
        by_cases hall : d'.all isDotChar = true
        · rw [if_pos hall] at h
          simp only [Option.some.injEq, Prod.mk.injEq] at h
          obtain ⟨hm, hd'⟩ := h
          refine ⟨rest.takeWhile isWordChar, hw,
            fun c hc => List.mem_takeWhile_imp hc, hm.symm, ?_, ?_⟩
          · subst hd'
            exact fun c hc => List.all_eq_true.mp hall c hc
          · have hs : s = urlHeader ++ rest := dropLit_eq_some h1
            have hr : rest.dropWhile isWordChar = sepB64 ++ d' := dropLit_eq_some h2
            have hrest : rest = rest.takeWhile isWordChar ++ (sepB64 ++ d') := by
              rw [← hr, List.takeWhile_append_dropWhile]
            subst hd'
            rw [hs]
            conv_lhs => rw [hrest]
            simp [List.append_assoc]
        · rw [if_neg hall] at h; simp at h

theorem shape_of_match {s : List Char} {pr : List Char × List Char}
    (h : matchDataUrl s = some pr) : dataUrlShape s := by
  obtain ⟨w, hw, hwc, _, hd, hs⟩ := matchDataUrl_sound (m := pr.1) (d := pr.2)
    (by rw [h])
  exact ⟨w, pr.2, hw, hwc, hd, hs⟩

theorem isSome_of_shape {s : List Char} (h : dataUrlShape s) :
    (matchDataUrl s).isSome = true := by
  obtain ⟨w, d, hw, hwc, hd, rfl⟩ := h
  rw [matchDataUrl_of_shape hw hwc hd]
  rfl

theorem parseDataUrl_not_shape (s : String) (h : ¬ dataUrlShape s.data) :
    parseDataUrl s = Except.error (Thrown.errorObj invalidFormatMsg) := by
  unfold parseDataUrl
  cases hm : matchDataUrl s.data with
  | none => rfl
  | some pr => exact absurd (shape_of_match hm) h

/-- C7: for every valid mime type (image/ followed by word characters) and
every base64 payload, decoding the assembled data URL yields exactly that mime
type and payload back: the decoder round-trips valid encodings. -/
theorem decode_roundtrip (mt d : String) (w : List Char)
    (hm : mt.data = imageSlash ++ w) (hw : w ≠ [])
    (hwc : ∀ c ∈ w, isWordChar c = true)
    (hd : ∀ c ∈ d.data, isBase64Char c = true) :
    parseDataUrl ("data:" ++ mt ++ ";base64," ++ d) =
      Except.ok { mimeType := mt, data := d } := by
  have hdata : ("data:" ++ mt ++ ";base64," ++ d).data =
      urlHeader ++ w ++ sepB64 ++ d.data := by
    show "data:".data ++ mt.data ++ ";base64,".data ++ d.data = _
    rw [hm]
    simp [urlHeader, sepB64, List.append_assoc]
    rfl
  unfold parseDataUrl
  rw [hdata, matchDataUrl_of_shape hw hwc (fun c hc => base64_isDot (hd c hc))]
  show (Except.ok { mimeType := String.mk (imageSlash ++ w), data := String.mk d.data } :
      Except Thrown ImagePayload) =
    Except.ok { mimeType := mt, data := d }
  rw [← hm]

/-- Witness for C7 at the pair (image/png, AAAA). -/
theorem decode_roundtrip_witness :
    ("image/png" : String).data = imageSlash ++ ('p' :: 'n' :: 'g' :: []) ∧
    parseDataUrl ("data:" ++ "image/png" ++ ";base64," ++ "AAAA") =
      Except.ok { mimeType := "image/png", data := "AAAA" } :=
  ⟨by decide, decode_roundtrip "image/png" "AAAA" ('p' :: 'n' :: 'g' :: [])
    (by decide) (by decide) (by decide) (by decide)⟩

/-- C8: every string without the data-URL shape makes the decoder fail with
the invalid-format Error carrying the fixed shape description; the decoder is
a pure function, so the failure has no side effects. -/
theorem decode_invalid (s : String) (h : ¬ dataUrlShape s.data) :
    parseDataUrl s = Except.error (Thrown.errorObj invalidFormatMsg) :=
  parseDataUrl_not_shape s h

/-- Witness for C8 at the string hello. -/
theorem decode_invalid_witness :
    ¬ dataUrlShape ("hello" : String).data ∧
    parseDataUrl "hello" = Except.error (Thrown.errorObj invalidFormatMsg) := by
  have hns : ¬ dataUrlShape ("hello" : String).data := by
    intro hsh
    have h2 := isSome_of_shape hsh
    rw [show matchDataUrl ("hello" : String).data = none from by decide] at h2
    exact absurd h2 (by decide)
  exact ⟨hns, decode_invalid "hello" hns⟩

/-- Counterexample to C9: the decoder accepts a data URL with an empty payload
and produces an ImagePayload whose data field is the empty string, so decode
can produce a payload with an empty data field. -/
theorem decode_empty_data_cex :
    parseDataUrl "data:image/png;base64," =
      Except.ok { mimeType := "image/png", data := "" } ∧
    ({ mimeType := "image/png", data := "" } : ImagePayload).data.data = [] := by
  decide

/-- C9 (amended): every payload the decoder constructs has a mime type of the
form image/ followed by a nonempty run of word characters, and a data field
whose characters a regex dot matches; the data field is not validated as
base64 and may be empty. -/
theorem decode_payload_invariant (s : String) (p : ImagePayload)
    (h : parseDataUrl s = Except.ok p) :
    (∃ w : List Char, w ≠ [] ∧ (∀ c ∈ w, isWordChar c = true) ∧
      p.mimeType.data = imageSlash ++ w) ∧
    (∀ c ∈ p.data.data, isDotChar c = true) := by
  unfold parseDataUrl at h
  cases hm : matchDataUrl s.data with
  | none => rw [hm] at h; simp at h
  | some pr =>
    rw [hm] at h
    simp only [Except.ok.injEq] at h
    obtain ⟨w, hw, hwc, hm1, hd, _⟩ := matchDataUrl_sound (m := pr.1) (d := pr.2)
      (by rw [hm])
    subst h
    exact ⟨⟨w, hw, hwc, hm1⟩, hd⟩

/-- Witness for C9's amended statement at a concrete accepted input. -/
theorem decode_payload_invariant_witness :
    parseDataUrl "data:image/png;base64,AAAA" =
      Except.ok { mimeType := "image/png", data := "AAAA" } ∧
    ((∃ w : List Char, w ≠ [] ∧ (∀ c ∈ w, isWordChar c = true) ∧
        ({ mimeType := "image/png", data := "AAAA" } : ImagePayload).mimeType.data =
          imageSlash ++ w) ∧
      (∀ c ∈ ({ mimeType := "image/png", data := "AAAA" } : ImagePayload).data.data,
        isDotChar c = true)) :=
  ⟨by decide, decode_payload_invariant "data:image/png;base64,AAAA" _ (by decide)⟩

/-- C2: whenever generateProductScene fails, the failure the caller receives is
one uniform Error whose message is the fixed wrapping header followed by the
underlying cause's rendering, which is the cause's message when the cause is an
Error and its JSON rendering otherwise. -/
theorem generateScene_uniform_failure
    (remote : GenerationRequest → Except Thrown GeminiResponse)
    (person product prompt : String) (e : Thrown)
    (h : generateProductScene remote person product prompt = Except.error e) :
    ∃ cause : Thrown,
      genPipeline remote person product prompt = Except.error cause ∧
      e = Thrown.errorObj (genFailureHeader ++ renderThrown cause) ∧
      (∀ msg, cause = Thrown.errorObj msg → renderThrown cause = msg) ∧
      (∀ j, cause = Thrown.other j → renderThrown cause = j) := by
  unfold generateProductScene at h
  cases hp : genPipeline remote person product prompt with
  | ok url => rw [hp] at h; simp at h
  | error cause =>
    rw [hp] at h
    simp only [Except.error.injEq] at h
    exact ⟨cause, rfl, h.symm, fun msg hc => by rw [hc]; rfl,
      fun j hc => by rw [hc]; rfl⟩

/-- Witness for C2: a remote call that throws a non-Error value (its JSON
rendering is 42) is wrapped into the uniform failure. -/
theorem generateScene_uniform_failure_witness :
    generateProductScene (fun _ => Except.error (Thrown.other "42"))
        "data:image/png;base64,AAAA" "data:image/jpeg;base64,BBBB" "a prompt" =
      Except.error (Thrown.errorObj (genFailureHeader ++ "42")) ∧
    ∃ cause : Thrown,
      genPipeline (fun _ => Except.error (Thrown.other "42"))
          "data:image/png;base64,AAAA" "data:image/jpeg;base64,BBBB" "a prompt" =
        Except.error cause ∧
      Thrown.errorObj (genFailureHeader ++ "42") =
        Thrown.errorObj (genFailureHeader ++ renderThrown cause) ∧
      (∀ msg, cause = Thrown.errorObj msg → renderThrown cause = msg) ∧
      (∀ j, cause = Thrown.other j → renderThrown cause = j) :=
  ⟨by decide,
    generateScene_uniform_failure (fun _ => Except.error (Thrown.other "42"))
      "data:image/png;base64,AAAA" "data:image/jpeg;base64,BBBB" "a prompt"
      (Thrown.errorObj (genFailureHeader ++ "42")) (by decide)⟩

/-- The parts of the first candidate's content, collapsing every absent link
of the optional chain to the empty list. -/
def partsListOf (r : GeminiResponse) : List ResponsePart :=
  match r.candidates with
  | some (c :: _) =>
    match c.content with
    | some ct => ct.parts.getD []
    | none => []
  | _ => []

theorem imagePartOf_eq_find (r : GeminiResponse) :
    imagePartOf r = (partsListOf r).find? fun part => part.inlineData.isSome := by
  obtain ⟨cands, text⟩ := r
  cases cands with
  | none => rfl
  | some cs =>
    cases cs with
    | nil => rfl
    | cons c rest =>
      obtain ⟨ct⟩ := c
      cases ct with
      | none => rfl
      | some content =>
        obtain ⟨ps⟩ := content
        cases ps with
        | none => rfl
        | some parts => rfl

/-- C10: when no part of the first candidate carries inline binary data,
processGeminiResponse never succeeds: it fails with the text-instead-of-image
Error embedding the aggregate text verbatim, or the fixed placeholder when the
text is absent or empty. -/
theorem noImage_text_failure (r : GeminiResponse)
    (h : ∀ part ∈ partsListOf r, part.inlineData = none) :
    processGeminiResponse r =
      Except.error (Thrown.errorObj
        ("The AI model responded with text instead of an image: \"" ++
          textOrPlaceholder r.text ++ "\"")) ∧
    (∀ t, r.text = some t → t ≠ "" → textOrPlaceholder r.text = t) ∧
    ((r.text = none ∨ r.text = some "") →
      textOrPlaceholder r.text = noTextPlaceholder) ∧
    (∀ u, processGeminiResponse r ≠ Except.ok u) := by
  have hfind : ((partsListOf r).find? fun part => part.inlineData.isSome) = none :=
    List.find?_eq_none.mpr fun part hp => by rw [h part hp]; simp
  have hnone : imagePartOf r = none := by rw [imagePartOf_eq_find, hfind]
  have hmain : processGeminiResponse r =
      Except.error (Thrown.errorObj
        ("The AI model responded with text instead of an image: \"" ++
          textOrPlaceholder r.text ++ "\"")) := by
    unfold processGeminiResponse
    rw [hnone]
    rfl
  refine ⟨hmain, ?_, ?_, ?_⟩
  · intro t ht hne
    rw [ht]
    simp [textOrPlaceholder, hne]
  · rintro (ht | ht) <;> rw [ht] <;> rfl
  · intro u hu
    rw [hmain] at hu
    exact Except.noConfusion hu

/-- A response whose only part is text, with the spec's example sentence as
the aggregate text field. -/
def textOnlyResponse : GeminiResponse :=
  { candidates := some [{ content := some { parts := some [{ inlineData := none, text := some "I can't do that" }] } }]
    text := some "I can't do that" }

/-- Witness for C10: a text-only response whose aggregate text is the spec's
example sentence. -/
theorem noImage_text_failure_witness :
    (∀ part ∈ partsListOf textOnlyResponse, part.inlineData = none) ∧
    processGeminiResponse textOnlyResponse =
      Except.error (Thrown.errorObj
        ("The AI model responded with text instead of an image: \"" ++
          textOrPlaceholder textOnlyResponse.text ++ "\"")) :=
  ⟨by decide, (noImage_text_failure textOnlyResponse (by decide)).1⟩

theorem handleGenerate_all_fail (outcomes : Nat → Except String String)
    (msgs : Nat → String) (hfail : ∀ n, outcomes n = Except.error (msgs n))
    (s : AppState) (hp : isBlank s.personImage = false)
    (hq : isBlank s.productImage = false) :
    handleGenerate outcomes (fun _ => ExtAct.nop) s =
      ({ s with
          isLoading := false
          generatedImage := none
          error := some terminalErrorMsg
          appState := AppPhase.error
          cancelled := false },
       [GenEvent.attemptCall 1, GenEvent.backoffWait 2000, GenEvent.retryStatus 2,
        GenEvent.attemptCall 2, GenEvent.backoffWait 2000, GenEvent.retryStatus 3,
        GenEvent.attemptCall 3]) := by
  obtain ⟨pi, qi, po, pr, gi, il, er, ph, cc⟩ := s
  simp only [isBlank] at hp hq
  unfold handleGenerate
  simp [isBlank, hp, hq, generateLoop, MAX_ATTEMPTS, applyExt,
    hfail 1, hfail 2, hfail 3, retryMsg]

/-- C5: when every attempt's call fails, the session ends in the Error phase
carrying the generic terminal message (a fixed constant independent of the
attempts' error details), and the session's event list shows the 2000 ms
backoff exactly twice, between attempts 1 and 2 and between attempts 2 and 3,
with no wait after the final attempt. -/
theorem retry_exhaustion (outcomes : Nat → Except String String)
    (msgs : Nat → String) (hfail : ∀ n, outcomes n = Except.error (msgs n))
    (s : AppState) (hp : isBlank s.personImage = false)
    (hq : isBlank s.productImage = false) :
    handleGenerate outcomes (fun _ => ExtAct.nop) s =
      ({ s with
          isLoading := false
          generatedImage := none
          error := some terminalErrorMsg
          appState := AppPhase.error
          cancelled := false },
       [GenEvent.attemptCall 1, GenEvent.backoffWait 2000, GenEvent.retryStatus 2,
        GenEvent.attemptCall 2, GenEvent.backoffWait 2000, GenEvent.retryStatus 3,
        GenEvent.attemptCall 3]) :=
  handleGenerate_all_fail outcomes msgs hfail s hp hq

/-- Witness for C5 on a concrete ready state with a constant failure. -/
theorem retry_exhaustion_witness :
    (∀ n : Nat, (fun _ : Nat => (Except.error "boom" : Except String String)) n =
      Except.error ((fun _ : Nat => "boom") n)) ∧
    isBlank sampleState.personImage = false ∧
    isBlank sampleState.productImage = false ∧
    handleGenerate (fun _ => Except.error "boom") (fun _ => ExtAct.nop) sampleState =
      ({ sampleState with
          isLoading := false
          generatedImage := none
          error := some terminalErrorMsg
          appState := AppPhase.error
          cancelled := false },
       [GenEvent.attemptCall 1, GenEvent.backoffWait 2000, GenEvent.retryStatus 2,
        GenEvent.attemptCall 2, GenEvent.backoffWait 2000, GenEvent.retryStatus 3,
        GenEvent.attemptCall 3]) :=
  ⟨fun _ => rfl, by decide, by decide,
    retry_exhaustion (fun _ => Except.error "boom") (fun _ => "boom") (fun _ => rfl)
      sampleState (by decide) (by decide)⟩

/-- C6: when attempts 1 and 2 fail and attempt 3 succeeds, the session ends in
the Results phase holding attempt 3's image, and the event list contains
exactly two transient retrying status updates (for attempts 2 and 3, each
carrying its attempt count), both before the successful call. -/
theorem retry_success_third (s : AppState) (e1 e2 url : String)
    (hp : isBlank s.personImage = false) (hq : isBlank s.productImage = false) :
    handleGenerate
        (fun n => if n = 1 then Except.error e1 else
          if n = 2 then Except.error e2 else Except.ok url)
        (fun _ => ExtAct.nop) s =
      ({ s with
          isLoading := false
          generatedImage := some url
          error := none
          appState := AppPhase.results
          cancelled := false },
       [GenEvent.attemptCall 1, GenEvent.backoffWait 2000, GenEvent.retryStatus 2,
        GenEvent.attemptCall 2, GenEvent.backoffWait 2000, GenEvent.retryStatus 3,
        GenEvent.attemptCall 3]) ∧
    List.filter isRetryEvent
        (handleGenerate
          (fun n => if n = 1 then Except.error e1 else
            if n = 2 then Except.error e2 else Except.ok url)
          (fun _ => ExtAct.nop) s).2 =
      [GenEvent.retryStatus 2, GenEvent.retryStatus 3] := by
  have hmain : handleGenerate
      (fun n => if n = 1 then Except.error e1 else
        if n = 2 then Except.error e2 else Except.ok url)
      (fun _ => ExtAct.nop) s =
      ({ s with
          isLoading := false
          generatedImage := some url
          error := none
          appState := AppPhase.results
          cancelled := false },
       [GenEvent.attemptCall 1, GenEvent.backoffWait 2000, GenEvent.retryStatus 2,
        GenEvent.attemptCall 2, GenEvent.backoffWait 2000, GenEvent.retryStatus 3,
        GenEvent.attemptCall 3]) := by
    obtain ⟨pi, qi, po, pr, gi, il, er, ph, cc⟩ := s
    simp only [isBlank] at hp hq
    unfold handleGenerate
    simp [isBlank, hp, hq, generateLoop, MAX_ATTEMPTS, applyExt, retryMsg]
  exact ⟨hmain, by rw [hmain]; rfl⟩

/-- Witness for C6 on a concrete ready state. -/
theorem retry_success_third_witness :
    isBlank sampleState.personImage = false ∧
    isBlank sampleState.productImage = false ∧
    handleGenerate
        (fun n => if n = 1 then Except.error "e1" else
          if n = 2 then Except.error "e2" else
            Except.ok "data:image/png;base64,CCCC")
        (fun _ => ExtAct.nop) sampleState =
      ({ sampleState with
          isLoading := false
          generatedImage := some "data:image/png;base64,CCCC"
          error := none
          appState := AppPhase.results
          cancelled := false },
       [GenEvent.attemptCall 1, GenEvent.backoffWait 2000, GenEvent.retryStatus 2,
        GenEvent.attemptCall 2, GenEvent.backoffWait 2000, GenEvent.retryStatus 3,
        GenEvent.attemptCall 3]) :=
  ⟨by decide, by decide,
    (retry_success_third sampleState "e1" "e2" "data:image/png;base64,CCCC"
      (by decide) (by decide)).1⟩

/-- C3: the cancel action synchronously puts the session in the Idle phase,
and when it runs while attempt a's remote call is in flight (suspension number
2*(a-1)), the final state of the whole run is exactly the state the cancel
action produced, whatever the in-flight call later resolves to: the resolution
is discarded and causes no further transition. -/
theorem cancel_inflight (s : AppState) (outcomes : Nat → Except String String)
    (msgs : Nat → String) (a : Nat) (ha : a = 1 ∨ a = 2 ∨ a = 3)
    (hp : isBlank s.personImage = false) (hq : isBlank s.productImage = false)
    (hfail : ∀ n, 1 ≤ n → n < a → outcomes n = Except.error (msgs n)) :
    (∀ u : AppState, (handleCancel u).appState = AppPhase.idle ∧
      (handleCancel u).isLoading = false) ∧
    (handleGenerate outcomes
        (fun j => if j = 2 * (a - 1) then ExtAct.cancel else ExtAct.nop) s).1 =
      { s with
        cancelled := true
        isLoading := false
        appState := AppPhase.idle
        error := none
        generatedImage := none } := by
  refine ⟨fun u => ⟨rfl, rfl⟩, ?_⟩
  obtain ⟨pi, qi, po, pr, gi, il, er, ph, cc⟩ := s
  simp only [isBlank] at hp hq
  unfold handleGenerate
  rcases ha with rfl | rfl | rfl
  · cases h1 : outcomes 1 <;>
      simp [isBlank, hp, hq, generateLoop, MAX_ATTEMPTS, applyExt, handleCancel, h1]
  · have f1 := hfail 1 (by norm_num) (by norm_num)
    cases h2 : outcomes 2 <;>
      simp [isBlank, hp, hq, generateLoop, MAX_ATTEMPTS, applyExt, handleCancel,
        f1, h2, retryMsg]
  · have f1 := hfail 1 (by norm_num) (by norm_num)
    have f2 := hfail 2 (by norm_num) (by norm_num)
    cases h3 : outcomes 3 <;>
      simp [isBlank, hp, hq, generateLoop, MAX_ATTEMPTS, applyExt, handleCancel,
        f1, f2, h3, retryMsg]

/-- Witness for C3: cancellation while attempt 2's call is in flight, on a
concrete ready state with failing attempts. -/
theorem cancel_inflight_witness :
    ((2 : Nat) = 1 ∨ (2 : Nat) = 2 ∨ (2 : Nat) = 3) ∧
    isBlank sampleState.personImage = false ∧
    isBlank sampleState.productImage = false ∧
    (∀ n : Nat, 1 ≤ n → n < 2 →
      (fun _ : Nat => (Except.error "boom" : Except String String)) n =
        Except.error ((fun _ : Nat => "boom") n)) ∧
    ((∀ u : AppState, (handleCancel u).appState = AppPhase.idle ∧
        (handleCancel u).isLoading = false) ∧
      (handleGenerate (fun _ => Except.error "boom")
          (fun j => if j = 2 * (2 - 1) then ExtAct.cancel else ExtAct.nop)
          sampleState).1 =
        { sampleState with
          cancelled := true
          isLoading := false
          appState := AppPhase.idle
          error := none
          generatedImage := none }) :=
  ⟨Or.inr (Or.inl rfl), by decide, by decide, fun _ _ _ => rfl,
    cancel_inflight sampleState (fun _ => Except.error "boom") (fun _ => "boom") 2
      (Or.inr (Or.inl rfl)) (by decide) (by decide) (fun _ _ _ => rfl)⟩

theorem invalid_person_outcome
    (remote : GenerationRequest → Except Thrown GeminiResponse)
    (person product prompt : String) (hbad : ¬ dataUrlShape person.data) :
    generateProductScene remote person product prompt =
      Except.error (Thrown.errorObj (genFailureHeader ++ invalidFormatMsg)) := by
  have hparse := parseDataUrl_not_shape person hbad
  unfold generateProductScene genPipeline
  rw [hparse]
  rfl

/-- Counterexample to C1: with a malformed person image the session performs
three attempt calls, not one, and terminates with the generic terminal
message, which is not the wrapped invalid-format detail; so the failure is
retried and its specific detail is not what the user sees. -/
theorem invalid_format_retried_cex :
    (List.filter isAttemptEvent
      (handleGenerate
        (attemptOutcomes (fun _ _ => Except.error (Thrown.other "unused"))
          "bad" "data:image/jpeg;base64,BBBB" "a prompt")
        (fun _ => ExtAct.nop)
        { sampleState with personImage := some "bad" }).2).length = 3 ∧
    (handleGenerate
        (attemptOutcomes (fun _ _ => Except.error (Thrown.other "unused"))
          "bad" "data:image/jpeg;base64,BBBB" "a prompt")
        (fun _ => ExtAct.nop)
        { sampleState with personImage := some "bad" }).1.appState = AppPhase.error ∧
    (handleGenerate
        (attemptOutcomes (fun _ _ => Except.error (Thrown.other "unused"))
          "bad" "data:image/jpeg;base64,BBBB" "a prompt")
        (fun _ => ExtAct.nop)
        { sampleState with personImage := some "bad" }).1.error =
      some terminalErrorMsg ∧
    terminalErrorMsg ≠ genFailureHeader ++ invalidFormatMsg := by
  decide

/-- C1 (amended): a malformed person image makes every attempt fail, with an
outcome independent of the remote behaviour (no remote call can influence it)
and equal to the uniform wrapping of the invalid-format detail; the retry loop
treats this failure like any other, so all three attempts run and the session
ends in the Error phase showing the generic terminal message, not the
specific detail. -/
theorem invalid_format_behavior
    (remotes remotes' : Nat → GenerationRequest → Except Thrown GeminiResponse)
    (person product prompt : String) (s : AppState)
    (hbad : ¬ dataUrlShape person.data)
    (hpi : s.personImage = some person) (hpe : person ≠ "")
    (hqi : s.productImage = some product) (hqe : product ≠ "") :
    (∀ n, attemptOutcomes remotes person product prompt n =
      Except.error (genFailureHeader ++ invalidFormatMsg)) ∧
    attemptOutcomes remotes person product prompt =
      attemptOutcomes remotes' person product prompt ∧
    handleGenerate (attemptOutcomes remotes person product prompt)
        (fun _ => ExtAct.nop) s =
      ({ s with
          isLoading := false
          generatedImage := none
          error := some terminalErrorMsg
          appState := AppPhase.error
          cancelled := false },
       [GenEvent.attemptCall 1, GenEvent.backoffWait 2000, GenEvent.retryStatus 2,
        GenEvent.attemptCall 2, GenEvent.backoffWait 2000, GenEvent.retryStatus 3,
        GenEvent.attemptCall 3]) := by
  have hout : ∀ (rem : Nat → GenerationRequest → Except Thrown GeminiResponse) n,
      attemptOutcomes rem person product prompt n =
        Except.error (genFailureHeader ++ invalidFormatMsg) := by
    intro rem n
    unfold attemptOutcomes
    rw [invalid_person_outcome (rem n) person product prompt hbad]
    rfl
  refine ⟨hout remotes, funext fun n => by rw [hout remotes n, hout remotes' n], ?_⟩
  exact handleGenerate_all_fail _ (fun _ => genFailureHeader ++ invalidFormatMsg)
    (hout remotes) s
    (by rw [hpi]; simpa [isBlank] using hpe)
    (by rw [hqi]; simpa [isBlank] using hqe)

/-- Witness for C1's amended statement: the malformed person image bad on a
concrete state, under two different remote behaviours. -/
theorem invalid_format_behavior_witness :
    ¬ dataUrlShape ("bad" : String).data ∧
    (∀ n, attemptOutcomes (fun _ _ => Except.error (Thrown.other "unused"))
        "bad" "data:image/jpeg;base64,BBBB" "a prompt" n =
      Except.error (genFailureHeader ++ invalidFormatMsg)) ∧
    attemptOutcomes (fun _ _ => Except.error (Thrown.other "unused"))
        "bad" "data:image/jpeg;base64,BBBB" "a prompt" =
      attemptOutcomes (fun _ _ => Except.ok textOnlyResponse)
        "bad" "data:image/jpeg;base64,BBBB" "a prompt" ∧
    handleGenerate
        (attemptOutcomes (fun _ _ => Except.error (Thrown.other "unused"))
          "bad" "data:image/jpeg;base64,BBBB" "a prompt")
        (fun _ => ExtAct.nop)
        { sampleState with personImage := some "bad" } =
      ({ { sampleState with personImage := some "bad" } with
          isLoading := false
          generatedImage := none
          error := some terminalErrorMsg
          appState := AppPhase.error
          cancelled := false },
       [GenEvent.attemptCall 1, GenEvent.backoffWait 2000, GenEvent.retryStatus 2,
        GenEvent.attemptCall 2, GenEvent.backoffWait 2000, GenEvent.retryStatus 3,
        GenEvent.attemptCall 3]) := by
  have hbad : ¬ dataUrlShape ("bad" : String).data := by
    intro hsh
    have h2 := isSome_of_shape hsh
    rw [show matchDataUrl ("bad" : String).data = none from by decide] at h2
    exact absurd h2 (by decide)
  exact ⟨hbad,
    invalid_format_behavior (fun _ _ => Except.error (Thrown.other "unused"))
      (fun _ _ => Except.ok textOnlyResponse)
      "bad" "data:image/jpeg;base64,BBBB" "a prompt"
      { sampleState with personImage := some "bad" }
      hbad rfl (by decide) rfl (by decide)⟩

/-- Counterexample to C4: in the Idle phase no session is active, yet the
reset action clears an uploaded image and so changes the state; and in the
Results phase (also no active session) the cancel action clears the result. -/
theorem cancel_reset_not_noop_cex :
    sampleState.appState = AppPhase.idle ∧
    handleReset sampleState ≠ sampleState ∧
    sampleState.personImage = some "data:image/png;base64,AAAA" ∧
    (handleReset sampleState).personImage = none ∧
    ({ sampleState with
        appState := AppPhase.results
        generatedImage := some "data:image/png;base64,CCCC" }).appState =
      AppPhase.results ∧
    handleCancel
        { sampleState with
          appState := AppPhase.results
          generatedImage := some "data:image/png;base64,CCCC" } ≠
      { sampleState with
        appState := AppPhase.results
        generatedImage := some "data:image/png;base64,CCCC" } ∧
    (handleCancel
        { sampleState with
          appState := AppPhase.results
          generatedImage := some "data:image/png;base64,CCCC" }).generatedImage =
      none := by
  decide

/-- C4 (amended): in the Idle phase, where result and error are already clear
and loading is off, cancel changes nothing except setting the internal
cancellation flag; reset always restores every field to its initial value
(with the flag set), so it is a no-op only on the initial field values and in
particular clears uploaded images and prompt selection whenever they are set. -/
theorem cancel_idle_noop (s : AppState) (h1 : s.appState = AppPhase.idle)
    (h2 : s.error = none) (h3 : s.generatedImage = none)
    (h4 : s.isLoading = false) :
    handleCancel s = { s with cancelled := true } ∧
    handleReset s = { initialState with cancelled := true } := by
  obtain ⟨pi, qi, po, pr, gi, il, er, ph, cc⟩ := s
  dsimp only at h1 h2 h3 h4
  subst h1
  subst h2
  subst h3
  subst h4
  exact ⟨rfl, rfl⟩

/-- Witness for C4's amended statement on a concrete idle state with images. -/
theorem cancel_idle_noop_witness :
    sampleState.appState = AppPhase.idle ∧ sampleState.error = none ∧
    sampleState.generatedImage = none ∧ sampleState.isLoading = false ∧
    (handleCancel sampleState = { sampleState with cancelled := true } ∧
      handleReset sampleState = { initialState with cancelled := true }) :=
  ⟨rfl, rfl, rfl, rfl, cancel_idle_noop sampleState rfl rfl rfl rfl⟩

end Ubahsemaugue
